import Mathlib

/-!
# tzme: sized memory, the libcurl write callback, timezone extraction and commit

A shallow embedding of `src/src/smem.c` and `src/main.c`.

* Heap blocks are lists of bytes; a `char *` is `none` (NULL) or `some block`,
  the block's length being the size of the allocation.
* `size_t` arithmetic is arithmetic on `Nat` modulo `2 ^ 64`.
* The outcome of every call into the C library, libcurl, libxml2 and sd-bus is
  an input of the model, so every theorem quantifies over all outcomes.
* In `curl_write` a read or write outside an allocation is undefined behaviour:
  the embedded function yields `none`.
* A run is described by the list of actions it performs and by how it ends.
  In `parse_tz` the block requested for the result and the bytes copied into it
  are recorded by their sizes, and the run goes on with the copied text.
-/

namespace Tzme

/-! ## Memory model -/

/-- One `char`. -/
abbrev Byte := Fin 256

/-- The modulus of `size_t` arithmetic. -/
def SIZE_MOD : Nat := 2 ^ 64

/-- Outcome of an allocator call that hands out uninitialised bytes: `none` is a
NULL result, `some fill` a fresh block whose `i`-th new byte is `fill i`. -/
abbrev Alloc := Option (Nat → Byte)

/-- The C library `calloc(n, 1)`: NULL when `ok` is false, otherwise `n` zero bytes. -/
def calloc (n : Nat) (ok : Bool) : Option (List Byte) :=
  if ok then some (List.replicate n 0) else none

/-- The C library `realloc(p, size)`: NULL on failure; on success a block of
`size` bytes that keeps the old content up to the smaller of the two sizes, the
bytes beyond it being whatever the allocator left there. `realloc(NULL, size)`
is `malloc(size)`. -/
def realloc (p : Option (List Byte)) (size : Nat) : Alloc → Option (List Byte)
  | none => none
  | some fill =>
    let old := p.getD []
    some (old.take size ++ (List.range (size - old.length)).map fill)

/-- The C library `memcpy(blk + off, src, n)`: defined only when the `n` bytes
written lie inside `blk` and the `n` bytes read lie inside `src`. -/
def memcpy (blk : List Byte) (off : Int) (src : List Byte) (n : Nat) : Option (List Byte) :=
  if 0 ≤ off ∧ off.toNat + n ≤ blk.length ∧ n ≤ src.length then
    some (blk.take off.toNat ++ src.take n ++ blk.drop (off.toNat + n))
  else none

/-- The assignment `blk[idx] = v`: defined only for an index inside `blk`. -/
def store (blk : List Byte) (idx : Nat) (v : Byte) : Option (List Byte) :=
  if idx < blk.length then some (blk.set idx v) else none

/-! ## smem.c -/

/-- The struct `smem_t`: a length and the contents of memory. -/
structure smem_t where
  len : Nat
  mem : Option (List Byte)
  deriving DecidableEq

/-- The function `smem_init(mem, len)`: sets the length, allocates zeroed
storage, returns `!!(mem->mem)`. -/
def smem_init (len : Nat) (ok : Bool) : smem_t × Int :=
  let m := calloc len ok
  ({ len := len, mem := m }, if m.isSome then 1 else 0)

/-- The function `smem_valid(mem)`: `!!(mem->mem)`. -/
def smem_valid (s : smem_t) : Int :=
  if s.mem.isSome then 1 else 0

/-- The function `smem_free(mem)`: frees the storage, then `len = 0` and `mem = NULL`. -/
def smem_free (s : smem_t) : smem_t :=
  { s with len := 0, mem := none }

/-! ## main.c: the write callback -/

/-- The function `curl_write(content, len, nmemb, uptr)`. The result is the
buffer afterwards and the value returned; `none` is undefined behaviour.
The failure branch returns `- -1`, the negation of `-1`, which is `1`. -/
def curl_write (content : List Byte) (len nmemb : Nat) (data : smem_t) (a : Alloc) :
    Option (smem_t × Nat) :=
  let bytes := (len * nmemb) % SIZE_MOD
  match realloc data.mem ((data.len + bytes) % SIZE_MOD) a with
  | none =>
    -- `data->mem` has been overwritten with NULL by the failed assignment
    some (smem_free { data with mem := none }, 1)
  | some blk =>
    match memcpy blk ((data.len : Int) - 1) content bytes with
    | none => none
    | some blk1 =>
      let len1 := (data.len + bytes) % SIZE_MOD
      match store blk1 ((len1 + SIZE_MOD - 1) % SIZE_MOD) 0 with
      | none => none
      | some blk2 => some ({ len := len1, mem := some blk2 }, bytes)

/-- One chunk handed to the write callback, with the outcome of the
reallocation made while handling it. -/
structure Delivery where
  content : List Byte
  len : Nat
  nmemb : Nat
  alloc : Alloc

/-- The byte count of a chunk, `len * nmemb` in `size_t`. -/
def Delivery.bytes (d : Delivery) : Nat := (d.len * d.nmemb) % SIZE_MOD

/-- Successive calls of `curl_write` on the same buffer, all of them made
whatever they return: the buffer at the end and the values returned. -/
def curl_writes (data : smem_t) : List Delivery → Option (smem_t × List Nat)
  | [] => some (data, [])
  | d :: ds =>
    match curl_write d.content d.len d.nmemb data d.alloc with
    | none => none
    | some (data1, r) =>
      match curl_writes data1 ds with
      | none => none
      | some (data2, rs) => some (data2, r :: rs)

/-- The bytes of a sequence of chunks, in order. -/
def payload (ds : List Delivery) : List Byte := (ds.map Delivery.content).flatten

/-! ## libcurl: one transfer -/

/-- The result code `CURLE_OK`. -/
def CURLE_OK : Nat := 0

/-- The result code `CURLE_WRITE_ERROR`, which libcurl gives when the write
callback returns a value other than the byte count it was handed. -/
def CURLE_WRITE_ERROR : Nat := 23

/-- What a transfer did: the buffer on entry to each `curl_write` call, in
order, and the buffer and result code at the end (`none`: a callback ran into
undefined behaviour). -/
structure Transfer where
  entries : List smem_t
  result : Option (smem_t × Nat)
  deriving DecidableEq

/-- The library call `curl_easy_perform` with `curl_write` as the write
function and `data` as its user pointer. libcurl hands over the chunks one by
one as long as each call returns that chunk's byte count; a different return
value aborts the transfer with `CURLE_WRITE_ERROR`; when every chunk has been
taken the result is `transport`, the code the transport itself ends with. -/
def curl_easy_perform (data : smem_t) (transport : Nat) : List Delivery → Transfer
  | [] => { entries := [], result := some (data, transport) }
  | d :: ds =>
    match curl_write d.content d.len d.nmemb data d.alloc with
    | none => { entries := [data], result := none }
    | some (data1, r) =>
      if r = d.bytes then
        let t := curl_easy_perform data1 transport ds
        { entries := data :: t.entries, result := t.result }
      else { entries := [data], result := some (data1, CURLE_WRITE_ERROR) }

/-! ## Observable actions -/

/-- A C string: the bytes at a `char *`, read up to the first 0 byte (the end of
the list stands for the terminator when no 0 byte comes earlier). -/
abbrev CStr := List Byte

/-- The C library `strlen`. -/
def strlen : CStr → Nat
  | [] => 0
  | b :: bs => if b = 0 then 0 else strlen bs + 1

/-- The text of a C string: its bytes before the terminator. -/
def cstr_text : CStr → List Byte
  | [] => []
  | b :: bs => if b = 0 then [] else b :: cstr_text bs

/-- The actions of the program that are recorded: entries into `usage`,
`parse_tz` and `set_timezone`, the lines printed (by format string), the calls
into libcurl, libxml2 and sd-bus, and the allocation and copy `parse_tz` makes
for its result. Option setting and the release of memory are not recorded. -/
inductive Event where
  | enter_usage
  | enter_parse_tz
  | enter_set_timezone (tz : CStr)
  | stdout (fmt : String)
  | stderr (fmt : String)
  | curl_global_init
  | curl_easy_init
  | curl_easy_perform
  | curl_easy_cleanup
  | curl_global_cleanup
  | xmlParseDoc
  | xmlXPathNewContext
  | xmlXPathEvalExpression
  | xmlXPathFreeObject
  | xmlXPathFreeContext
  | xmlFreeDoc
  | malloc (size : Nat)
  | strcpy (written : Nat)
  | sd_bus_open_system
  | sd_bus_call_method (tz : CStr)
  | sd_bus_error_free
  | sd_bus_unref
  deriving DecidableEq

/-! ## main.c: extraction -/

/-- The outcome of the libxml2 calls and of the allocation made by `parse_tz`.
`doc`, `ctx` and `obj` say whether `xmlParseDoc`, `xmlXPathNewContext` and
`xmlXPathEvalExpression` gave a non-NULL result. `nodesetval` is the node set of
the result (`none`: a NULL pointer), given by the `content` of the nodes in
`nodeTab`; its `nodeNr` is the number of them. `malloc_ok` says whether `malloc`
gave a non-NULL block. -/
structure XmlOutcome where
  doc : Bool
  ctx : Bool
  obj : Bool
  nodesetval : Option (List CStr)
  malloc_ok : Bool

/-- How a call of `parse_tz` ends. -/
inductive ParseEnd where
  /-- The call returns `ret`; `ptr` is what it stored through the destination
  pointer (`none`: nothing was stored), as the size requested from `malloc` and
  the bytes `strcpy` wrote. -/
  | returned (ret : Int) (ptr : Option (Nat × List Byte))
  /-- The statement `assert(xpathObj)` fails. -/
  | aborted
  /-- A NULL pointer is dereferenced. -/
  | undefined
  deriving DecidableEq

/-- The function `parse_tz(data, ptr)`: the actions it performs and how it ends.
The block for the result is requested with `malloc(strlen(value))` and filled by
`strcpy`, which writes the text and its terminator; both sizes are recorded, and
the call goes on with the copied text. A NULL `nodesetval` or a NULL block from
`malloc` is dereferenced. -/
def parse_tz (_data : smem_t) (x : XmlOutcome) : List Event × ParseEnd :=
  if !x.doc then
    ([.enter_parse_tz, .xmlParseDoc, .stderr "Failed to parse XML\n"], .returned 0 none)
  else if !x.ctx then
    ([.enter_parse_tz, .xmlParseDoc, .xmlXPathNewContext,
      .stderr "Failed to create new XPath context\n", .xmlFreeDoc], .returned 0 none)
  else if !x.obj then
    ([.enter_parse_tz, .xmlParseDoc, .xmlXPathNewContext, .xmlXPathEvalExpression], .aborted)
  else
    match x.nodesetval with
    | none =>
      ([.enter_parse_tz, .xmlParseDoc, .xmlXPathNewContext, .xmlXPathEvalExpression],
        .undefined)
    | some [] =>
      ([.enter_parse_tz, .xmlParseDoc, .xmlXPathNewContext, .xmlXPathEvalExpression,
        .stderr "Failed to find timezone information\n",
        .xmlXPathFreeObject, .xmlXPathFreeContext, .xmlFreeDoc], .returned 0 none)
    | some (value :: _) =>
      if !x.malloc_ok then
        ([.enter_parse_tz, .xmlParseDoc, .xmlXPathNewContext, .xmlXPathEvalExpression,
          .malloc (strlen value)], .undefined)
      else
        ([.enter_parse_tz, .xmlParseDoc, .xmlXPathNewContext, .xmlXPathEvalExpression,
          .malloc (strlen value), .strcpy (cstr_text value ++ [0]).length,
          .stdout "Timezone detected: %s\n",
          .xmlXPathFreeObject, .xmlXPathFreeContext, .xmlFreeDoc],
          .returned 1 (some (strlen value, cstr_text value ++ [0])))

/-! ## main.c: commit -/

/-- The function `set_timezone(tz)`, given the values returned by
`sd_bus_open_system` and `sd_bus_call_method`: the actions it performs and the
value it returns, `(ret == 0)`. -/
def set_timezone (tz : CStr) (open_ret call_ret : Int) : List Event × Int :=
  if open_ret < 0 then
    ([.enter_set_timezone tz, .sd_bus_open_system,
      .stderr "Failed to connect to system bus: %s\n", .sd_bus_unref],
      if open_ret = 0 then 1 else 0)
  else if call_ret < 0 then
    ([.enter_set_timezone tz, .sd_bus_open_system, .sd_bus_call_method tz,
      .stderr "Failed to issue SetTimezone(...): %s\n", .sd_bus_error_free, .sd_bus_unref],
      if call_ret = 0 then 1 else 0)
  else
    ([.enter_set_timezone tz, .sd_bus_open_system, .sd_bus_call_method tz,
      .stdout "Timezone updated!\n", .sd_bus_error_free, .sd_bus_unref],
      if call_ret = 0 then 1 else 0)

/-- The timezone was committed: the bus connection was opened and the
`SetTimezone` call went through, both calls returning a non-negative value. -/
def committed (open_ret call_ret : Int) : Prop :=
  0 ≤ open_ret ∧ 0 ≤ call_ret

instance (open_ret call_ret : Int) : Decidable (committed open_ret call_ret) :=
  inferInstanceAs (Decidable (_ ∧ _))

/-! ## main.c: usage and entry point -/

/-- The format string printed by `usage`. -/
def usage_text : String :=
  "usage: %s [timezone]\n\n" ++
  "Dynamically update the system timezone based on GeoIP\n\n" ++
  "Args:\n" ++
  "  timezone: Optional, pass a timezone to set manually\n" ++
  "    See: https://www.freedesktop.org/wiki/Software/systemd/timedated/\n"

/-- The function `usage(argc, argv)`: prints the usage text and returns 1. -/
def usage : List Event × Int :=
  ([.enter_usage, .stdout usage_text], 1)

/-- Everything the environment decides in one run of the program. `argv` holds
the program name and the arguments, so `argc` is its length. -/
structure Env where
  argv : List CStr
  curl_ok : Bool
  calloc_ok : Bool
  deliveries : List Delivery
  transport : Nat
  xml : XmlOutcome
  open_ret : Int
  call_ret : Int

/-- How a run of the program ends. -/
inductive Outcome where
  | exit (status : Int)
  | aborted
  | undefined
  deriving DecidableEq

/-- The transfer made by `main` in auto-detect mode: `curl_easy_perform` on the
buffer created by `smem_init(&data, 1)`. -/
def fetch (env : Env) : Transfer :=
  curl_easy_perform (smem_init 1 env.calloc_ok).1 env.transport env.deliveries

/-- The function `main(argc, argv)`: the actions it performs and how it ends.
The value returned after the transfer is `!(res == CURLE_OK)`. -/
def main (env : Env) : List Event × Outcome :=
  let argc := env.argv.length
  if argc > 2 then
    (usage.1, .exit usage.2)
  else if argc = 2 then
    let r := set_timezone (env.argv.getD 1 []) env.open_ret env.call_ret
    (r.1, .exit r.2)
  else if !env.curl_ok then
    ([.curl_global_init, .curl_easy_init, .stderr "Failed to initialize libcurl\n"], .exit 1)
  else if (smem_init 1 env.calloc_ok).2 = 0 then
    ([.curl_global_init, .curl_easy_init, .stderr "Failed to initialize storage\n"], .exit 1)
  else
    let pre : List Event := [.curl_global_init, .curl_easy_init, .curl_easy_perform]
    let post : List Event := [.curl_easy_cleanup, .curl_global_cleanup]
    match (fetch env).result with
    | none => (pre, .undefined)
    | some (data, res) =>
      let status : Int := if res = CURLE_OK then 0 else 1
      if res ≠ CURLE_OK then
        (pre ++ [.stderr "Failed to contact the internet: %s\n"] ++ post, .exit status)
      else if smem_valid data ≠ 0 then
        match parse_tz data env.xml with
        | (t, .aborted) => (pre ++ t, .aborted)
        | (t, .undefined) => (pre ++ t, .undefined)
        | (t, .returned ret ptr) =>
          if ret = 0 then
            (pre ++ t ++ [.stderr "Failed to parse timezone\n"] ++ post, .exit status)
          else
            match ptr with
            | none => (pre ++ t, .undefined)
            | some (_, written) =>
              let r := set_timezone (cstr_text written) env.open_ret env.call_ret
              (pre ++ t ++ r.1 ++ post, .exit status)
      else
        (pre ++ post, .exit status)

/-! ## Concrete inputs -/

/-- Two chunks, `<R` and `/>!`, whose reallocations both succeed. -/
def two_chunks : List Delivery :=
  [ { content := [60, 82], len := 1, nmemb := 2, alloc := some fun _ => 7 },
    { content := [47, 62, 33], len := 3, nmemb := 1, alloc := some fun i => Fin.ofNat i } ]

/-- A one-byte chunk whose reallocation fails, followed by a two-byte chunk
whose reallocation succeeds. -/
def failed_byte_then_more : List Delivery :=
  [ { content := [65], len := 1, nmemb := 1, alloc := none },
    { content := [66, 67], len := 1, nmemb := 2, alloc := some fun _ => 0 } ]

/-- The text `UTC`, as bytes. -/
def utc : CStr := [85, 84, 67]

/-- A document that parses and in which the query matches one text node, `UTC`. -/
def xml_utc : XmlOutcome :=
  { doc := true, ctx := true, obj := true, nodesetval := some [utc], malloc_ok := true }

/-- A document that does not parse. -/
def xml_malformed : XmlOutcome :=
  { doc := false, ctx := true, obj := true, nodesetval := some [utc], malloc_ok := true }

/-- A run with one argument, `UTC`, in which both bus calls return 0. -/
def env_explicit_ok : Env :=
  { argv := [[116, 122], utc], curl_ok := true, calloc_ok := true, deliveries := two_chunks,
    transport := CURLE_OK, xml := xml_utc, open_ret := 0, call_ret := 0 }

/-- A run with one argument in which the bus cannot be reached (`-ENOENT`). -/
def env_explicit_nobus : Env :=
  { env_explicit_ok with open_ret := -2 }

/-- A run without arguments in which everything succeeds. -/
def env_auto_ok : Env :=
  { env_explicit_ok with argv := [[116, 122]] }

/-- A run without arguments in which the transfer succeeds and the document
does not parse. -/
def env_auto_malformed : Env :=
  { env_auto_ok with xml := xml_malformed }

/-- A run without arguments in which the transfer and the extraction succeed and
the service rejects the call (`-EACCES`). -/
def env_auto_rejected : Env :=
  { env_auto_ok with call_ret := -13 }

/-- A run with three arguments. -/
def env_three_args : Env :=
  { env_explicit_ok with argv := [[116, 122], utc, utc, utc] }

/-- A document that parses and has no `TimeZone` under `Response`: the query
matches no node and the result carries a NULL `nodesetval`. -/
def xml_no_timezone : XmlOutcome :=
  { doc := true, ctx := true, obj := true, nodesetval := none, malloc_ok := true }

/-- A run without arguments in which the transfer succeeds and the document has
no `TimeZone` under `Response`. -/
def env_auto_no_timezone : Env :=
  { env_auto_ok with xml := xml_no_timezone }

/-! ## The write callback: appending -/

theorem realloc_grow (blk : List Byte) (n : Nat) (fill : Nat → Byte) :
    realloc (some blk) (blk.length + n) (some fill) = some (blk ++ (List.range n).map fill) := by
  simp [realloc]

theorem store_last (p t : List Byte) (ht : t.length = 1) :
    store (p ++ t) p.length 0 = some (p ++ [0]) := by
  match t, ht with
  | [y], _ => simp [store]

theorem memcpy_tail (acc c rest : List Byte) (x : Byte) (hr : rest.length = c.length) :
    ∃ t : List Byte, t.length = 1 ∧
      memcpy (acc ++ [x] ++ rest) (((acc.length + 1 : Nat) : Int) - 1) c c.length
        = some (acc ++ c ++ t) := by
  refine ⟨(acc ++ [x] ++ rest).drop (acc.length + c.length), ?_, ?_⟩
  · simp [hr]
  · have h0 : (((acc.length + 1 : Nat) : Int) - 1) = (acc.length : Int) := by push_cast; ring
    rw [h0]
    simp [memcpy, hr, List.take_append_eq_append_take]

/-- One successful append to a buffer holding `acc` and its terminator. -/
theorem curl_write_append (acc c : List Byte) (l n : Nat) (fill : Nat → Byte)
    (hc : c.length = l * n) (hsz : acc.length + 1 + c.length < SIZE_MOD) :
    curl_write c l n { len := acc.length + 1, mem := some (acc ++ [0]) } (some fill)
      = some ({ len := acc.length + 1 + c.length, mem := some (acc ++ c ++ [0]) }, c.length) := by
  have hb : (l * n) % SIZE_MOD = c.length := by
    rw [← hc]; exact Nat.mod_eq_of_lt (by omega)
  have hs : (acc.length + 1 + c.length) % SIZE_MOD = acc.length + 1 + c.length :=
    Nat.mod_eq_of_lt hsz
  have hi : (acc.length + 1 + c.length + SIZE_MOD - 1) % SIZE_MOD = acc.length + c.length := by
    have : acc.length + 1 + c.length + SIZE_MOD - 1 = (acc.length + c.length) + SIZE_MOD := by omega
    rw [this, Nat.add_mod_right]; exact Nat.mod_eq_of_lt (by omega)
  have hr : realloc (some (acc ++ [0])) (acc.length + 1 + c.length) (some fill)
      = some ((acc ++ [0]) ++ (List.range c.length).map fill) := by
    have := realloc_grow (acc ++ [0]) c.length fill
    simpa using this
  obtain ⟨t, ht, hm⟩ := memcpy_tail acc c ((List.range c.length).map fill) 0 (by simp)
  have hst : store (acc ++ c ++ t) (acc.length + c.length) 0 = some (acc ++ c ++ [0]) := by
    have := store_last (acc ++ c) t ht
    simpa using this
  unfold curl_write
  simp only [hb, hs, hr, hi, hm, hst]

theorem curl_writes_from (ds : List Delivery) :
    ∀ acc : List Byte,
      (∀ d ∈ ds, d.content.length = d.len * d.nmemb) →
      (∀ d ∈ ds, d.alloc.isSome = true) →
      acc.length + 1 + (payload ds).length < SIZE_MOD →
      curl_writes { len := acc.length + 1, mem := some (acc ++ [0]) } ds
        = some ({ len := acc.length + 1 + (payload ds).length,
                  mem := some (acc ++ payload ds ++ [0]) },
                ds.map fun d => d.content.length) := by
  induction ds with
  | nil => intro acc _ _ _; simp [curl_writes, payload]
  | cons d ds ih =>
    intro acc hlen halloc hsz
    have hd := hlen d (List.mem_cons_self _ _)
    have ha := halloc d (List.mem_cons_self _ _)
    obtain ⟨fill, hfill⟩ := Option.isSome_iff_exists.mp ha
    have hp : payload (d :: ds) = d.content ++ payload ds := by simp [payload]
    rw [hp, List.length_append] at hsz
    have h1 := curl_write_append acc d.content d.len d.nmemb fill hd (by omega)
    have hl : (acc ++ d.content).length + 1 = acc.length + 1 + d.content.length := by
      simp only [List.length_append]; omega
    have h2 := ih (acc ++ d.content)
      (fun e he => hlen e (List.mem_cons_of_mem _ he))
      (fun e he => halloc e (List.mem_cons_of_mem _ he))
      (by rw [hl]; omega)
    rw [hl] at h2
    rw [curl_writes, hfill, h1]
    simp only [h2]
    simp only [hp, List.length_append, List.map_cons, List.append_assoc, Nat.add_assoc]

theorem payload_take_le (ds : List Delivery) (k : Nat) :
    (payload (ds.take k)).length ≤ (payload ds).length := by
  have h : payload ds = payload (ds.take k) ++ payload (ds.drop k) := by
    unfold payload
    rw [← List.flatten_append, ← List.map_append, List.take_append_drop]
  rw [h, List.length_append]; omega

theorem bytes_eq_length (ds : List Delivery)
    (hlen : ∀ d ∈ ds, d.content.length = d.len * d.nmemb)
    (hsz : 1 + (payload ds).length < SIZE_MOD) :
    ds.map Delivery.bytes = ds.map fun d => d.content.length := by
  apply List.map_congr_left
  intro d hd
  have hsub : d.content.length ≤ (payload ds).length :=
    (List.sublist_flatten_of_mem (List.mem_map_of_mem Delivery.content hd)).length_le
  rw [Delivery.bytes, ← hlen d hd]
  exact Nat.mod_eq_of_lt (by omega)

/-- Appending a whole sequence to the buffer made by `smem_init(&data, 1)`. -/
theorem curl_writes_init (ds : List Delivery)
    (hlen : ∀ d ∈ ds, d.content.length = d.len * d.nmemb)
    (halloc : ∀ d ∈ ds, d.alloc.isSome = true)
    (hsz : 1 + (payload ds).length < SIZE_MOD) :
    curl_writes (smem_init 1 true).1 ds
      = some ({ len := 1 + (payload ds).length, mem := some (payload ds ++ [0]) },
              ds.map Delivery.bytes) := by
  have h := curl_writes_from ds [] hlen halloc (by simp only [List.length_nil]; omega)
  rw [bytes_eq_length ds hlen hsz]
  simpa [smem_init, calloc] using h

/-- C1: chunks appended by `curl_write` to the buffer made by `smem_init(&data, 1)`,
each chunk holding `len * nmemb` bytes, every reallocation succeeding and the
final size fitting `size_t`. The calls return the chunks' byte counts, which are
the chunks' lengths; at the end the buffer holds the chunks in order followed
by one 0 byte and its length is 1 plus the number of bytes appended; and after
each append (after the first `k` chunks, for every `k`) the buffer holds the
chunks so far followed by a 0 byte, which is its last byte. -/
theorem curl_write_concat (ds : List Delivery)
    (hlen : ∀ d ∈ ds, d.content.length = d.len * d.nmemb)
    (halloc : ∀ d ∈ ds, d.alloc.isSome = true)
    (hsz : 1 + (payload ds).length < SIZE_MOD) :
    (∃ s : smem_t,
      curl_writes (smem_init 1 true).1 ds = some (s, ds.map Delivery.bytes) ∧
      ds.map Delivery.bytes = ds.map (fun d => d.content.length) ∧
      s.mem = some (payload ds ++ [0]) ∧
      s.len = 1 + (payload ds).length) ∧
    (∀ k : Nat, ∃ s : smem_t,
      curl_writes (smem_init 1 true).1 (ds.take k) = some (s, (ds.take k).map Delivery.bytes) ∧
      s.mem = some (payload (ds.take k) ++ [0]) ∧
      s.mem.bind List.getLast? = some 0 ∧
      s.len = 1 + (payload (ds.take k)).length) := by
  refine ⟨⟨_, curl_writes_init ds hlen halloc hsz, bytes_eq_length ds hlen hsz, rfl, rfl⟩, ?_⟩
  intro k
  have hle := payload_take_le ds k
  refine ⟨_, curl_writes_init (ds.take k)
    (fun d hd => hlen d (List.mem_of_mem_take hd))
    (fun d hd => halloc d (List.mem_of_mem_take hd)) (by omega), rfl, ?_, rfl⟩
  simp

/-- C1 at two chunks, `<R` and `/>!`: the buffer ends as `<R/>!` and a 0 byte. -/
theorem curl_write_concat_two_chunks :
    curl_writes (smem_init 1 true).1 two_chunks
      = some ({ len := 6, mem := some [60, 82, 47, 62, 33, 0] }, [2, 3]) ∧
    (∃ s : smem_t,
      curl_writes (smem_init 1 true).1 two_chunks = some (s, two_chunks.map Delivery.bytes) ∧
      two_chunks.map Delivery.bytes = two_chunks.map (fun d => d.content.length) ∧
      s.mem = some (payload two_chunks ++ [0]) ∧
      s.len = 1 + (payload two_chunks).length) :=
  ⟨by decide,
   (curl_write_concat two_chunks (by decide) (by decide) (by decide)).1⟩

/-! ## The write callback: allocation failure -/

/-- When the reallocation fails, `curl_write` leaves the buffer released and
returns 1, whatever the buffer and the chunk. -/
theorem curl_write_realloc_failure (content : List Byte) (len nmemb : Nat) (data : smem_t) :
    curl_write content len nmemb data none = some ({ len := 0, mem := none }, 1) ∧
    smem_valid { len := 0, mem := none } = 0 := by
  simp [curl_write, realloc, smem_free, smem_valid]

/-- C4 at a one-byte chunk whose reallocation fails: the buffer is released, and
the value returned, 1, is the chunk's byte count. -/
theorem curl_write_failure_one_byte :
    curl_write [65] 1 1 { len := 1, mem := some [0] } none
      = some ({ len := 0, mem := none }, 1) ∧
    Delivery.bytes { content := [65], len := 1, nmemb := 1, alloc := none } = 1 := by
  decide

/-- C10 at a one-byte chunk whose reallocation fails followed by a two-byte
chunk: the first call returns the chunk's byte count, so the second call is
made, on the released buffer (length 0, NULL storage), where the copy starts one
byte before the new block and the call is undefined. -/
theorem transfer_after_failed_byte :
    curl_easy_perform (smem_init 1 true).1 CURLE_OK failed_byte_then_more
      = { entries := [{ len := 1, mem := some [0] }, { len := 0, mem := none }],
          result := none } ∧
    curl_write [66, 67] 1 2 { len := 0, mem := none } (some fun _ => 0) = none ∧
    memcpy [0, 0] (((0 : Nat) : Int) - 1) [66, 67] 2 = none := by
  decide

/-! ## smem.c -/

/-- C8: `smem_free` leaves length 0 and NULL storage whatever the buffer, leaves
a released buffer unchanged, gives the same result applied twice as applied
once, and `smem_valid` is false afterwards. -/
theorem smem_free_released (b : smem_t) :
    (smem_free b).len = 0 ∧ (smem_free b).mem = none ∧
    smem_free { len := 0, mem := none } = { len := 0, mem := none } ∧
    smem_free (smem_free b) = smem_free b ∧
    smem_valid (smem_free b) = 0 := by
  simp [smem_free, smem_valid]

/-! ## The commit and the exit status -/

/-- C3 at a bus that opens (0) and a `SetTimezone` call that returns 1: the
commit went through and the confirmation is printed, yet the value returned
is 0. -/
theorem set_timezone_positive_reply :
    committed 0 1 ∧
    Event.stdout "Timezone updated!\n" ∈ (set_timezone utc 0 1).1 ∧
    (set_timezone utc 0 1).2 = 0 := by
  decide

/-- C2 at four runs. With one argument and a successful commit the exit status
is 1; with one argument and an unreachable bus it is 0; without arguments, a
good transfer and a document that does not parse it is 0; without arguments, a
good transfer, a good extraction and a rejected call it is 0. -/
theorem main_exit_status_mismatch :
    (committed env_explicit_ok.open_ret env_explicit_ok.call_ret ∧
      (main env_explicit_ok).2 = .exit 1) ∧
    (¬ committed env_explicit_nobus.open_ret env_explicit_nobus.call_ret ∧
      (main env_explicit_nobus).2 = .exit 0) ∧
    ((parse_tz { len := 6, mem := some [60, 82, 47, 62, 33, 0] } env_auto_malformed.xml).2
        = .returned 0 none ∧
      (∀ tz, Event.enter_set_timezone tz ∉ (main env_auto_malformed).1) ∧
      (main env_auto_malformed).2 = .exit 0) ∧
    (¬ committed env_auto_rejected.open_ret env_auto_rejected.call_ret ∧
      Event.enter_set_timezone utc ∈ (main env_auto_rejected).1 ∧
      (main env_auto_rejected).2 = .exit 0) := by
  refine ⟨by decide, by decide, ⟨by decide, ?_, by decide⟩, by decide⟩
  intro tz
  have h : (main env_auto_malformed).1 = [.curl_global_init, .curl_easy_init,
      .curl_easy_perform, .enter_parse_tz, .xmlParseDoc, .stderr "Failed to parse XML\n",
      .stderr "Failed to parse timezone\n", .curl_easy_cleanup, .curl_global_cleanup] := by
    decide
  rw [h]
  simp

/-! ## Invalid invocation -/

/-- C5: with two or more arguments after the program name, `main` only enters
`usage`, which prints the usage text, and ends with status 1; it makes no call
into libcurl, does not enter `set_timezone` and makes no bus call. -/
theorem main_too_many_args (env : Env) (hargs : env.argv.length > 2) :
    main env = ([.enter_usage, .stdout usage_text], .exit 1) ∧
    Event.stdout usage_text ∈ (main env).1 ∧
    (∃ status : Int, (main env).2 = .exit status ∧ status ≠ 0) ∧
    Event.curl_global_init ∉ (main env).1 ∧
    Event.curl_easy_init ∉ (main env).1 ∧
    Event.curl_easy_perform ∉ (main env).1 ∧
    (∀ tz, Event.enter_set_timezone tz ∉ (main env).1) ∧
    Event.sd_bus_open_system ∉ (main env).1 ∧
    (∀ tz, Event.sd_bus_call_method tz ∉ (main env).1) := by
  have h : main env = ([.enter_usage, .stdout usage_text], .exit 1) := by
    simp [main, hargs, usage]
  rw [h]
  simp

/-- C5 at a run with three arguments. -/
theorem main_too_many_args_three :
    env_three_args.argv.length > 2 ∧
    main env_three_args = ([.enter_usage, .stdout usage_text], .exit 1) :=
  ⟨by decide, (main_too_many_args env_three_args (by decide)).1⟩

/-! ## Extraction -/

theorem cstr_text_length (v : CStr) : (cstr_text v).length = strlen v := by
  induction v with
  | nil => rfl
  | cons b bs ih =>
    by_cases hb : b = 0
    · simp [cstr_text, strlen, hb]
    · simp [cstr_text, strlen, hb, ih]

theorem cstr_text_terminated (v : CStr) : cstr_text (cstr_text v ++ [0]) = cstr_text v := by
  induction v with
  | nil => simp [cstr_text]
  | cons b bs ih =>
    by_cases hb : b = 0
    · simp [cstr_text, hb]
    · simp [cstr_text, hb, ih]

/-- The failure cases in which `parse_tz` does return. When the document does
not parse, it returns 0 with nothing stored, having only called `xmlParseDoc`
and printed the failure: no XPath context is created and no query evaluated.
When the context cannot be created, or the result carries a node set without
nodes, it returns 0 with nothing stored. And whenever it returns a non-zero
value the node set has at least one node. A result whose `nodesetval` is NULL is
not among these cases. -/
theorem parse_tz_returned_cases (data : smem_t) (x : XmlOutcome) :
    (x.doc = false →
      parse_tz data x
        = ([.enter_parse_tz, .xmlParseDoc, .stderr "Failed to parse XML\n"], .returned 0 none) ∧
      Event.xmlXPathNewContext ∉ (parse_tz data x).1 ∧
      Event.xmlXPathEvalExpression ∉ (parse_tz data x).1) ∧
    (x.doc = true → x.ctx = false → (parse_tz data x).2 = .returned 0 none) ∧
    (x.doc = true → x.ctx = true → x.obj = true → x.nodesetval = some [] →
      (parse_tz data x).2 = .returned 0 none) ∧
    (∀ ret ptr, (parse_tz data x).2 = .returned ret ptr → ret ≠ 0 →
      ∃ v vs, x.nodesetval = some (v :: vs)) := by
  refine ⟨?_, ?_, ?_, ?_⟩
  · intro h
    have hp : parse_tz data x
        = ([.enter_parse_tz, .xmlParseDoc, .stderr "Failed to parse XML\n"], .returned 0 none) := by
      simp [parse_tz, h]
    rw [hp]
    simp
  · intro h1 h2
    simp [parse_tz, h1, h2]
  · intro h1 h2 h3 h4
    simp [parse_tz, h1, h2, h3, h4]
  · intro ret ptr h hret
    unfold parse_tz at h
    split at h
    · simp at h; omega
    · split at h
      · simp at h; omega
      · split at h
        · simp at h
        · split at h
          · simp at h
          · simp at h; omega
          · exact ⟨_, _, by assumption⟩

/-- C7 at a document without `TimeZone` under `Response`, for which the query
matches no node and the result carries a NULL `nodesetval`: `parse_tz` reads
`nodes->nodeNr` through the NULL pointer, so it does not return 0 and does not
print the not-found line, and the run without arguments ends there. -/
theorem parse_tz_null_nodeset :
    parse_tz { len := 6, mem := some [60, 82, 47, 62, 33, 0] } xml_no_timezone
      = ([.enter_parse_tz, .xmlParseDoc, .xmlXPathNewContext, .xmlXPathEvalExpression],
         .undefined) ∧
    (∀ ptr, (parse_tz { len := 6, mem := some [60, 82, 47, 62, 33, 0] } xml_no_timezone).2
      ≠ .returned 0 ptr) ∧
    Event.stderr "Failed to find timezone information\n"
      ∉ (parse_tz { len := 6, mem := some [60, 82, 47, 62, 33, 0] } xml_no_timezone).1 ∧
    main env_auto_no_timezone
      = ([.curl_global_init, .curl_easy_init, .curl_easy_perform,
          .enter_parse_tz, .xmlParseDoc, .xmlXPathNewContext, .xmlXPathEvalExpression],
         .undefined) := by
  have h : parse_tz { len := 6, mem := some [60, 82, 47, 62, 33, 0] } xml_no_timezone
      = ([.enter_parse_tz, .xmlParseDoc, .xmlXPathNewContext, .xmlXPathEvalExpression],
         .undefined) := by decide
  refine ⟨h, ?_, ?_, by decide⟩
  · intro ptr
    rw [h]
    simp
  · rw [h]
    decide

/-- C9: when the query matches a text node holding `v`, `parse_tz` requests
`strlen(v)` bytes from `malloc`, for either outcome of that call; and when the
block is handed out, `strcpy` writes `strlen(v) + 1` bytes, the text and its
terminator, one byte more than was requested. -/
theorem parse_tz_alloc_short (data : smem_t) (x : XmlOutcome) (v : CStr) (vs : List CStr)
    (hdoc : x.doc = true) (hctx : x.ctx = true) (hobj : x.obj = true)
    (hnodes : x.nodesetval = some (v :: vs)) :
    Event.malloc (strlen v) ∈ (parse_tz data x).1 ∧
    (∀ n, Event.malloc n ∈ (parse_tz data x).1 → n = strlen v) ∧
    (x.malloc_ok = true →
      Event.strcpy (strlen v + 1) ∈ (parse_tz data x).1 ∧
      (∀ n, Event.strcpy n ∈ (parse_tz data x).1 → n = strlen v + 1) ∧
      (parse_tz data x).2 = .returned 1 (some (strlen v, cstr_text v ++ [0])) ∧
      (cstr_text v ++ [0]).length = strlen v + 1) := by
  have hl := cstr_text_length v
  by_cases hm : x.malloc_ok = true
  · simp [parse_tz, hdoc, hctx, hobj, hnodes, hm, hl]
  · simp [parse_tz, hdoc, hctx, hobj, hnodes, hm]

/-- C9 at the text `UTC` and at the empty text: 3 bytes requested and 4 written,
0 bytes requested and 1 written. -/
theorem parse_tz_alloc_short_examples :
    (Event.malloc 3 ∈ (parse_tz { len := 1, mem := some [0] } xml_utc).1 ∧
      Event.strcpy 4 ∈ (parse_tz { len := 1, mem := some [0] } xml_utc).1) ∧
    (Event.malloc 0 ∈ (parse_tz { len := 1, mem := some [0] }
        { xml_utc with nodesetval := some [[]] }).1 ∧
      Event.strcpy 1 ∈ (parse_tz { len := 1, mem := some [0] }
        { xml_utc with nodesetval := some [[]] }).1) :=
  ⟨⟨(parse_tz_alloc_short { len := 1, mem := some [0] } xml_utc utc [] rfl rfl rfl rfl).1,
    ((parse_tz_alloc_short { len := 1, mem := some [0] } xml_utc utc [] rfl rfl rfl rfl).2.2
      rfl).1⟩,
   ⟨(parse_tz_alloc_short { len := 1, mem := some [0] }
      { xml_utc with nodesetval := some [[]] } [] [] rfl rfl rfl rfl).1,
    ((parse_tz_alloc_short { len := 1, mem := some [0] }
      { xml_utc with nodesetval := some [[]] } [] [] rfl rfl rfl rfl).2.2 rfl).1⟩⟩

/-! ## The order of the stages -/

theorem parse_tz_trace (data : smem_t) (x : XmlOutcome) :
    ∀ tz, Event.enter_set_timezone tz ∉ (parse_tz data x).1 := by
  intro tz
  unfold parse_tz
  repeat' split
  all_goals simp

theorem set_timezone_trace (tz : CStr) (o c : Int) :
    Event.enter_parse_tz ∉ (set_timezone tz o c).1 ∧
    ∀ tz1, Event.enter_set_timezone tz1 ∈ (set_timezone tz o c).1 → tz1 = tz := by
  unfold set_timezone
  repeat' split
  all_goals simp

theorem parse_tz_success (data : smem_t) (x : XmlOutcome) (ret : Int)
    (ptr : Option (Nat × List Byte)) (h : (parse_tz data x).2 = .returned ret ptr)
    (hret : ret ≠ 0) :
    ∃ v vs, x.nodesetval = some (v :: vs) ∧ ret = 1 ∧
      ptr = some (strlen v, cstr_text v ++ [0]) := by
  unfold parse_tz at h
  split at h
  · simp at h; omega
  · split at h
    · simp at h; omega
    · split at h
      · simp at h
      · split at h
        · simp at h
        · simp at h; omega
        · split at h
          · simp at h
          · simp at h
            exact ⟨_, _, by assumption, h.1.symm, h.2.symm⟩

/-- C6: a run without arguments. If the transfer ends with a code other than
`CURLE_OK`, or with an invalid buffer, neither `parse_tz` nor `set_timezone` is
entered. If `parse_tz` returns 0, `set_timezone` is not entered. And whenever
`set_timezone` is entered, the transfer ended with `CURLE_OK` and a valid
buffer, `parse_tz` returned 1 on that buffer with the text of the first matched
node stored, `set_timezone` got that text, and the run is: the libcurl calls,
then `parse_tz`, then `set_timezone`, then the libcurl cleanup. -/
theorem main_stage_order (env : Env) (hargs : env.argv.length ≤ 1) :
    (∀ data res, (fetch env).result = some (data, res) →
      res ≠ CURLE_OK ∨ smem_valid data = 0 →
      Event.enter_parse_tz ∉ (main env).1 ∧
      ∀ tz, Event.enter_set_timezone tz ∉ (main env).1) ∧
    (∀ data res, (fetch env).result = some (data, res) →
      (∃ ptr, (parse_tz data env.xml).2 = .returned 0 ptr) →
      ∀ tz, Event.enter_set_timezone tz ∉ (main env).1) ∧
    (∀ tz, Event.enter_set_timezone tz ∈ (main env).1 →
      ∃ data v vs,
        (fetch env).result = some (data, CURLE_OK) ∧ smem_valid data ≠ 0 ∧
        env.xml.nodesetval = some (v :: vs) ∧
        (parse_tz data env.xml).2 = .returned 1 (some (strlen v, cstr_text v ++ [0])) ∧
        tz = cstr_text v ∧
        (main env).1 = [.curl_global_init, .curl_easy_init, .curl_easy_perform]
          ++ (parse_tz data env.xml).1
          ++ (set_timezone tz env.open_ret env.call_ret).1
          ++ [.curl_easy_cleanup, .curl_global_cleanup]) := by
  have h1 : ¬ env.argv.length > 2 := by omega
  have h2 : ¬ env.argv.length = 2 := by omega
  refine ⟨?_, ?_, ?_⟩
  · intro data res hf hfail
    unfold main
    simp only [h1, h2, if_false, hf]
    split
    · simp
    · split
      · simp
      · rcases hfail with hres | hval
        · simp [hres]
        · by_cases hres : res = CURLE_OK
          · simp [hres, hval]
          · simp [hres]
  · intro data res hf hparse tz
    obtain ⟨ptr, hp⟩ := hparse
    have hpt := parse_tz_trace data env.xml tz
    unfold main
    simp only [h1, h2, if_false, hf]
    split
    · simp
    · split
      · simp
      · split
        · simp
        · split
          · generalize hq : parse_tz data env.xml = q at hp hpt
            obtain ⟨t, e⟩ := q
            simp only at hp
            subst hp
            simpa using hpt
          · simp
  · intro tz hmem
    by_cases hcurl : env.curl_ok = true
    swap
    · exfalso
      have hm : (main env).1 = [.curl_global_init, .curl_easy_init,
          .stderr "Failed to initialize libcurl\n"] := by
        unfold main; simp [h1, h2, hcurl]
      rw [hm] at hmem; simp at hmem
    by_cases hinit : (smem_init 1 env.calloc_ok).2 = 0
    · exfalso
      have hm : (main env).1 = [.curl_global_init, .curl_easy_init,
          .stderr "Failed to initialize storage\n"] := by
        unfold main; simp [h1, h2, hcurl, hinit]
      rw [hm] at hmem; simp at hmem
    cases hf : (fetch env).result with
    | none =>
      exfalso
      have hm : (main env).1 = [.curl_global_init, .curl_easy_init, .curl_easy_perform] := by
        unfold main; simp [h1, h2, hcurl, hinit, hf]
      rw [hm] at hmem; simp at hmem
    | some p =>
      obtain ⟨data, res⟩ := p
      by_cases hres : res = CURLE_OK
      swap
      · exfalso
        have hm : (main env).1 = [.curl_global_init, .curl_easy_init, .curl_easy_perform,
            .stderr "Failed to contact the internet: %s\n",
            .curl_easy_cleanup, .curl_global_cleanup] := by
          unfold main; simp [h1, h2, hcurl, hinit, hf, hres]
        rw [hm] at hmem; simp at hmem
      by_cases hval : smem_valid data = 0
      · exfalso
        have hm : (main env).1 = [.curl_global_init, .curl_easy_init, .curl_easy_perform,
            .curl_easy_cleanup, .curl_global_cleanup] := by
          unfold main; simp [h1, h2, hcurl, hinit, hf, hres, hval]
        rw [hm] at hmem; simp at hmem
      have hpt := parse_tz_trace data env.xml tz
      have hps := parse_tz_success data env.xml
      generalize hq : parse_tz data env.xml = q at hpt hps
      obtain ⟨t, e⟩ := q
      cases e with
      | aborted =>
        exfalso
        have hm : (main env).1 = [.curl_global_init, .curl_easy_init, .curl_easy_perform]
            ++ t := by
          unfold main; simp [h1, h2, hcurl, hinit, hf, hres, hval, hq]
        rw [hm] at hmem; simp at hmem; exact hpt hmem
      | undefined =>
        exfalso
        have hm : (main env).1 = [.curl_global_init, .curl_easy_init, .curl_easy_perform]
            ++ t := by
          unfold main; simp [h1, h2, hcurl, hinit, hf, hres, hval, hq]
        rw [hm] at hmem; simp at hmem; exact hpt hmem
      | returned ret ptr =>
        by_cases hret : ret = 0
        · exfalso
          have hm : (main env).1 = [.curl_global_init, .curl_easy_init, .curl_easy_perform]
              ++ t ++ [.stderr "Failed to parse timezone\n", .curl_easy_cleanup,
                .curl_global_cleanup] := by
            unfold main; simp [h1, h2, hcurl, hinit, hf, hres, hval, hq, hret]
          rw [hm] at hmem; simp at hmem; exact hpt hmem
        · obtain ⟨v, vs, hn, hr1, hptr⟩ := hps ret ptr rfl hret
          subst hr1 hptr
          have hm : (main env).1 = [.curl_global_init, .curl_easy_init, .curl_easy_perform]
              ++ t ++ (set_timezone (cstr_text v) env.open_ret env.call_ret).1
              ++ [.curl_easy_cleanup, .curl_global_cleanup] := by
            unfold main
            simp [h1, h2, hcurl, hinit, hf, hres, hval, hq, cstr_text_terminated]
          have htz : tz = cstr_text v := by
            rw [hm] at hmem
            simp only [List.mem_append] at hmem
            rcases hmem with ((hmem | hmem) | hmem) | hmem
            · simp at hmem
            · exact absurd hmem hpt
            · exact (set_timezone_trace _ _ _).2 tz hmem
            · simp at hmem
          subst htz
          exact ⟨data, v, vs, by rw [hres], hval, hn, by rw [hq], rfl, by rw [hq]; exact hm⟩

/-- C6 at a run without arguments in which every stage succeeds: `set_timezone`
is entered with the extracted text, `UTC`, after `parse_tz`. -/
theorem main_stage_order_auto_ok :
    env_auto_ok.argv.length ≤ 1 ∧
    Event.enter_set_timezone utc ∈ (main env_auto_ok).1 ∧
    ∃ data v vs,
      (fetch env_auto_ok).result = some (data, CURLE_OK) ∧ smem_valid data ≠ 0 ∧
      env_auto_ok.xml.nodesetval = some (v :: vs) ∧
      (parse_tz data env_auto_ok.xml).2 = .returned 1 (some (strlen v, cstr_text v ++ [0])) ∧
      utc = cstr_text v ∧
      (main env_auto_ok).1 = [.curl_global_init, .curl_easy_init, .curl_easy_perform]
        ++ (parse_tz data env_auto_ok.xml).1
        ++ (set_timezone utc env_auto_ok.open_ret env_auto_ok.call_ret).1
        ++ [.curl_easy_cleanup, .curl_global_cleanup] :=
  ⟨by decide, by decide,
   (main_stage_order env_auto_ok (by decide)).2.2 utc (by decide)⟩


end Tzme
